import Mathlib

/-!
Shallow embedding of the `adonis-ai` package core: the error taxonomy and
classification (`BaseAIDriver.mapCommonErrors`), the resilience policy
(`withTimeout` / `withRetry`), the OpenAI/Gemini driver operations
(`generate` / `chat` / `embed` / `stream`), and the two manager classes
(`AIManager.use`, `AiManager.testProviders`).

JavaScript strings are modelled as Lean `String`, JS numbers occurring as
HTTP status codes and token counts as `Nat`, possibly-undefined fields as
`Option`, thrown exceptions as the `DriverError` inductive carried in
`Except`, and `Math.random() * 1000` jitter as a rational in `[0, 1000)`.
-/

/-! ## JavaScript primitives -/

/-- `pat` occurs at the head of `s` (character-exact). -/
def charsStart : List Char → List Char → Bool
  | [], _ => true
  | _ :: _, [] => false
  | a :: as, b :: bs => a == b && charsStart as bs

/-- `pat` occurs somewhere inside `s` (character-exact). -/
def charsHave (pat : List Char) : List Char → Bool
  | [] => pat.isEmpty
  | c :: rest => charsStart pat (c :: rest) || charsHave pat rest

/-- Model of JS `s.includes(pat)`: exact (case-sensitive) substring test. -/
def strIncludes (s pat : String) : Bool :=
  charsHave pat.data s.data

/-- Lower-case every character of a string (used only by the spec-side
case-insensitive matcher). -/
def lowerStr (s : String) : String :=
  String.mk (s.data.map Char.toLower)

/-- Characters removed by JS `String.prototype.trim` (ASCII whitespace). -/
def isWsChar (c : Char) : Bool :=
  c == ' ' || c == '\t' || c == '\n' || c == '\r'

/-- Model of JS `s.trim()`. -/
def jsTrim (s : String) : String :=
  String.mk (((s.data.dropWhile isWsChar).reverse.dropWhile isWsChar).reverse)

/-- JS `a || b` on strings: the empty string is falsy. -/
def jsOrStr (a b : String) : String :=
  if a = "" then b else a

/-- JS `a || b` on possibly-undefined numbers: `undefined` and `0` are falsy. -/
def jsOrNum (a b : Option Nat) : Option Nat :=
  match a with
  | some n => if n = 0 then b else some n
  | none => b

/-! ## Data model (src/src/types.ts) -/

/-- `AIChatMessage.role`: `'user' | 'assistant' | 'system'`. -/
inductive Role where
  | system
  | user
  | assistant
deriving DecidableEq, Repr

/-- `AIChatMessage { role, content }`. -/
structure AIChatMessage where
  role : Role
  content : String
deriving DecidableEq, Repr

/-- `AIResponse.usage { tokens, inputTokens?, outputTokens? }`. -/
structure AIUsage where
  tokens : Nat
  inputTokens : Option Nat
  outputTokens : Option Nat
deriving DecidableEq, Repr

/-- `AIResponse { text, usage, finishReason?, model? }` (fields the drivers
always populate are kept non-optional). -/
structure AIResponse where
  text : String
  usage : AIUsage
  finishReason : String
  model : String
deriving DecidableEq, Repr

/-- `AIChatResponse extends AIResponse { messages }`. -/
structure AIChatResponse where
  text : String
  messages : List AIChatMessage
  usage : AIUsage
  finishReason : String
  model : String
deriving DecidableEq, Repr

/-- `AIEmbeddingResponse { embeddings, usage { tokens } }`; embedding vectors
are modelled as lists of integers standing in for the float entries. -/
structure AIEmbeddingResponse where
  embeddings : List (List Int)
  usage : AIUsage
deriving DecidableEq, Repr

/-- `AIStreamResponse { text: '', stream, usage }`, with the lazy fragment
stream abstracted by a type parameter. -/
structure AIStreamResponse (σ : Type) where
  text : String
  stream : σ
  usage : AIUsage
deriving DecidableEq, Repr

/-! ## Errors (src/src/errors.ts)

Thrown values reaching the resilience policy are either raw SDK errors
(an object with `message`, optional numeric `status`, optional `code`) or
one of the package's own `Exception` subclasses. -/

inductive DriverError where
  /-- A raw error from the provider SDK: `message`, optional `status`,
  optional numeric `code`. -/
  | raw (message : String) (status : Option Nat) (code : Option Nat)
  /-- `AIApiKeyException(provider)` — status 500. -/
  | apiKeyExc (provider : String)
  /-- `AIConfigurationException(message)` — status 500. -/
  | configExc (message : String)
  /-- `AIRateLimitException(provider)` (no retryAfter) — status 429. -/
  | rateLimitExc (provider : String)
  /-- `AITimeoutException(provider, timeout)` — status 408. -/
  | timeoutExc (provider : String) (timeoutMs : Nat)
  /-- `AIServiceException(provider, message, statusCode?)` — status
  `statusCode || 500`, already resolved at construction. -/
  | serviceExc (provider : String) (message : String) (status : Nat)
  /-- `AIDriverNotFoundException(driver)` — status 500. -/
  | driverNotFoundExc (driver : String)
deriving DecidableEq, Repr

namespace DriverError

/-- The `.message` property of a thrown value (exception messages as built by
the constructors in src/src/errors.ts). -/
def jsMessage : DriverError → String
  | raw m _ _ => m
  | apiKeyExc p => "Missing or invalid API key for " ++ p ++ " provider"
  | configExc m => "Invalid AI configuration: " ++ m
  | rateLimitExc p => "AI request to " ++ p ++ " exceeded rate limits"
  | timeoutExc p t => "AI request to " ++ p ++ " timed out after " ++ toString t ++ "ms"
  | serviceExc p m _ => "AI service error from " ++ p ++ ": " ++ m
  | driverNotFoundExc d => "AI driver \"" ++ d ++ "\" is not registered or not configured"

/-- The `.status` property of a thrown value: raw errors carry their own
(possibly absent) status; every package exception carries the HTTP status
fixed by its constructor. -/
def jsStatus : DriverError → Option Nat
  | raw _ s _ => s
  | apiKeyExc _ => some 500
  | configExc _ => some 500
  | rateLimitExc _ => some 429
  | timeoutExc _ _ => some 408
  | serviceExc _ _ s => some s
  | driverNotFoundExc _ => some 500

/-- The numeric `.code` property: only raw SDK errors may carry one (the
package exceptions carry string codes such as `E_AI_TIMEOUT`, which compare
unequal to every number). -/
def jsNumCode : DriverError → Option Nat
  | raw _ _ c => c
  | _ => none

end DriverError

/-! ## Error classification (BaseAIDriver.mapCommonErrors) -/

/-- `const message = error.message || 'Unknown error occurred'`. -/
def errMessage (e : DriverError) : String :=
  jsOrStr e.jsMessage "Unknown error occurred"

/-- `const statusCode = error.status || error.code`. -/
def errStatusCode (e : DriverError) : Option Nat :=
  jsOrNum e.jsStatus e.jsNumCode

/-- `BaseAIDriver.isAuthError`. -/
def isAuthError (message : String) (statusCode : Option Nat) : Bool :=
  strIncludes message "api key" ||
  strIncludes message "API_KEY" ||
  strIncludes message "authentication" ||
  strIncludes message "401" ||
  statusCode == some 401

/-- `BaseAIDriver.isRateLimitError`. -/
def isRateLimitError (message : String) (statusCode : Option Nat) : Bool :=
  strIncludes message "rate limit" || strIncludes message "429" || statusCode == some 429

/-- `BaseAIDriver.isTimeoutError`. -/
def isTimeoutError (message : String) (statusCode : Option Nat) : Bool :=
  strIncludes message "timeout" || strIncludes message "408" || statusCode == some 408

/-- `BaseAIDriver.isServiceError`. -/
def isServiceError (message : String) (statusCode : Option Nat) : Bool :=
  strIncludes message "503" ||
  strIncludes message "502" ||
  strIncludes message "SERVICE_UNAVAILABLE" ||
  statusCode == some 503 ||
  statusCode == some 502

/-- `BaseAIDriver.mapCommonErrors`: classify a thrown value into exactly one
of the package exceptions (the function's `never` return type is modelled by
always producing the thrown exception as a value). -/
def mapCommonErrors (providerName : String) (e : DriverError) : DriverError :=
  let message := errMessage e
  let statusCode := errStatusCode e
  if isAuthError message statusCode then
    .apiKeyExc providerName
  else if isRateLimitError message statusCode then
    .rateLimitExc providerName
  else if isTimeoutError message statusCode then
    .timeoutExc providerName 30000
  else if isServiceError message statusCode then
    .serviceExc providerName "Service temporarily unavailable" 503
  else
    .serviceExc providerName message 500

/-! ## Resilience policy (BaseAIDriver.withRetry / withTimeout)

An asynchronous attempt is modelled as a function from the attempt index to
its settled outcome: `Except DriverError α`. `withTimeout` enters the model
through the outcomes themselves — an attempt whose timer fires first settles
as `.error (.timeoutExc provider timeout)` with the configured timeout, as
built on the reject path of `withTimeout`. -/

/-- The no-retry test in `withRetry`'s catch:
`error instanceof AIApiKeyException || error.status === 400 | 401 | 403`. -/
def noRetryError (e : DriverError) : Bool :=
  (match e with | .apiKeyExc _ => true | _ => false) ||
  e.jsStatus == some 400 ||
  e.jsStatus == some 401 ||
  e.jsStatus == some 403

instance exceptDecEq {ε α : Type} [DecidableEq ε] [DecidableEq α] :
    DecidableEq (Except ε α) := fun x y =>
  match x, y with
  | .ok a, .ok b =>
    if h : a = b then .isTrue (by rw [h]) else .isFalse (by intro hc; cases hc; exact h rfl)
  | .error a, .error b =>
    if h : a = b then .isTrue (by rw [h]) else .isFalse (by intro hc; cases hc; exact h rfl)
  | .ok _, .error _ => .isFalse (by intro hc; cases hc)
  | .error _, .ok _ => .isFalse (by intro hc; cases hc)

/-- Result of running the retry loop: the value returned or error thrown,
the number of attempts executed, and the 0-indexed attempts after which the
loop slept before retrying. -/
structure RetryOutcome (α : Type) where
  result : Except DriverError α
  attemptsMade : Nat
  sleeps : List Nat
deriving DecidableEq, Repr

/-- The loop body of `BaseAIDriver.withRetry`, at attempt index `a` with `r`
retries still allowed (`r = 0` corresponds to `attempt === maxRetries`). -/
def withRetryGo (attempts : Nat → Except DriverError α) (a : Nat) : Nat → RetryOutcome α
  | 0 =>
    match attempts a with
    | .ok v => ⟨.ok v, a + 1, []⟩
    | .error e =>
      if noRetryError e then ⟨.error e, a + 1, []⟩
      else ⟨.error e, a + 1, []⟩
  | r + 1 =>
    match attempts a with
    | .ok v => ⟨.ok v, a + 1, []⟩
    | .error e =>
      if noRetryError e then ⟨.error e, a + 1, []⟩
      else
        let o := withRetryGo attempts (a + 1) r
        ⟨o.result, o.attemptsMade, a :: o.sleeps⟩

/-- `BaseAIDriver.withRetry(fn, maxRetries)`: run the loop from attempt 0. -/
def withRetry (attempts : Nat → Except DriverError α) (maxRetries : Nat) : RetryOutcome α :=
  withRetryGo attempts 0 maxRetries

/-- The duration slept after a failed attempt `n` that will be retried:
`Math.min(1000 * Math.pow(2, n), 10000)` plus the jitter
`Math.random() * 1000`, as an exact rational. -/
def backoffSleep (n : Nat) (jitter : ℚ) : ℚ :=
  ((min (1000 * 2 ^ n) 10000 : Nat) : ℚ) + jitter

/-! ## Driver call pipeline (OpenAI / Gemini main.ts)

Each driver operation validates its input, then runs
`withRetry(() => withTimeout(sdkCall.then(buildResponse)))` inside a
`try { … } catch (e) { throw this.mapCommonErrors(e) }`. -/

/-- The `try/catch` around `withRetry`: on failure the last error is passed
through `mapCommonErrors`. Returns the outcome together with the number of
remote attempts executed. -/
def runWithMapping (providerName : String) (attempts : Nat → Except DriverError α)
    (maxRetries : Nat) : Except DriverError α × Nat :=
  let o := withRetry attempts maxRetries
  match o.result with
  | .ok v => (.ok v, o.attemptsMade)
  | .error e => (.error (mapCommonErrors providerName e), o.attemptsMade)

/-- One settled chat-completion from the OpenAI SDK (`completion` with its
first `choice`): the fields the driver reads. -/
structure Completion where
  /-- `choices[0]?.message?.content`, absent or empty when missing. -/
  content : Option String
  /-- `completion.usage?.total_tokens`. -/
  totalTokens : Option Nat
  /-- `completion.usage?.prompt_tokens`. -/
  promptTokens : Option Nat
  /-- `completion.usage?.completion_tokens`. -/
  completionTokens : Option Nat
  /-- `choices[0].finish_reason`. -/
  finishReason : Option String
  /-- `completion.model`. -/
  model : String
deriving DecidableEq, Repr

/-- JS truthiness of `choice?.message?.content`: a present, non-empty string. -/
def Completion.contentTruthy (c : Completion) : Option String :=
  match c.content with
  | none => none
  | some t => if t = "" then none else some t

namespace OpenAIDriver

/-- The `.then(completion => …)` continuation of `OpenAIDriver.generate`. -/
def buildGenResponse (c : Completion) : Except DriverError AIResponse :=
  match c.contentTruthy with
  | none => .error (.raw "No response generated from OpenAI API" none none)
  | some t =>
    .ok
      { text := t
        usage :=
          { tokens := c.totalTokens.getD 0
            inputTokens := some (c.promptTokens.getD 0)
            outputTokens := some (c.completionTokens.getD 0) }
        finishReason := jsOrStr (c.finishReason.getD "") "unknown"
        model := c.model }

/-- The `.then(completion => …)` continuation of `OpenAIDriver.chat`:
identical to `generate`'s but also appending the assistant reply to the
input message list. -/
def buildChatResponse (messages : List AIChatMessage) (c : Completion) :
    Except DriverError AIChatResponse :=
  match c.contentTruthy with
  | none => .error (.raw "No response generated from OpenAI API" none none)
  | some t =>
    .ok
      { text := t
        messages := messages ++ [{ role := .assistant, content := t }]
        usage :=
          { tokens := c.totalTokens.getD 0
            inputTokens := some (c.promptTokens.getD 0)
            outputTokens := some (c.completionTokens.getD 0) }
        finishReason := jsOrStr (c.finishReason.getD "") "unknown"
        model := c.model }

/-- `OpenAIDriver.generate`: validate the prompt, then run the resilience
pipeline; the second component counts remote calls attempted. -/
def generate (prompt : String) (completions : Nat → Except DriverError Completion)
    (maxRetries : Nat) : Except DriverError AIResponse × Nat :=
  if prompt = "" || (jsTrim prompt).length = 0 then
    (.error (.configExc "Prompt cannot be empty"), 0)
  else
    runWithMapping "openai" (fun i => (completions i).bind buildGenResponse) maxRetries

/-- `OpenAIDriver.chat`: validate the message list, then run the resilience
pipeline; the second component counts remote calls attempted. -/
def chat (messages : List AIChatMessage) (completions : Nat → Except DriverError Completion)
    (maxRetries : Nat) : Except DriverError AIChatResponse × Nat :=
  if messages.length = 0 then
    (.error (.configExc "Messages array cannot be empty"), 0)
  else if messages.any (fun m => m.content = "" || (jsTrim m.content).length = 0) then
    (.error (.configExc "Message content cannot be empty"), 0)
  else
    runWithMapping "openai" (fun i => (completions i).bind (buildChatResponse messages)) maxRetries

/-- One settled embeddings response from the OpenAI SDK. -/
structure EmbedApiResponse where
  /-- `response.data[i].embedding`. -/
  data : List (List Int)
  /-- `response.usage?.total_tokens`. -/
  totalTokens : Option Nat
deriving DecidableEq, Repr

/-- The `.then(response => …)` continuation of `OpenAIDriver.embed`. -/
def buildEmbedResponse (r : EmbedApiResponse) : Except DriverError AIEmbeddingResponse :=
  .ok
    { embeddings := r.data
      usage := { tokens := r.totalTokens.getD 0, inputTokens := none, outputTokens := none } }

/-- `const texts = Array.isArray(text) ? text : [text]`. -/
def normalizeEmbedInput : String ⊕ List String → List String
  | .inl s => [s]
  | .inr l => l

/-- `OpenAIDriver.embed`: normalize, validate, then run the resilience
pipeline; the second component counts remote calls attempted. -/
def embed (input : String ⊕ List String)
    (responses : Nat → Except DriverError EmbedApiResponse) (maxRetries : Nat) :
    Except DriverError AIEmbeddingResponse × Nat :=
  let texts := normalizeEmbedInput input
  if texts.length = 0 then
    (.error (.configExc "Text array cannot be empty"), 0)
  else if texts.any (fun t => t = "" || (jsTrim t).length = 0) then
    (.error (.configExc "Text content cannot be empty"), 0)
  else
    runWithMapping "openai" (fun i => (responses i).bind buildEmbedResponse) maxRetries

/-- `OpenAIDriver.stream`: validate the prompt, then make a single
connection attempt (no retry wrapper); the second component counts remote
calls attempted. -/
def stream (prompt : String) (connect : Except DriverError σ) :
    Except DriverError (AIStreamResponse σ) × Nat :=
  if prompt = "" || (jsTrim prompt).length = 0 then
    (.error (.configExc "Prompt cannot be empty"), 0)
  else
    match connect with
    | .ok s =>
      (.ok { text := "", stream := s
             usage := { tokens := 0, inputTokens := none, outputTokens := none } }, 1)
    | .error e => (.error (mapCommonErrors "openai" e), 1)

end OpenAIDriver

/-- `BaseAIDriver.estimateTokens` / `GeminiDriver.estimateTokens`:
`Math.ceil(text.length / 4)`. -/
def estimateTokens (text : String) : Nat :=
  (text.length + 3) / 4

namespace GeminiDriver

/-- The response construction inside `GeminiDriver.chat`, given the reply
text returned by `response.text()`. -/
def buildChatResponse (messages : List AIChatMessage) (defaultModel : String)
    (text : String) : Except DriverError AIChatResponse :=
  if text = "" then
    .error (.raw "No response generated from Gemini API" none none)
  else
    .ok
      { text := text
        messages := messages ++ [{ role := .assistant, content := text }]
        usage := { tokens := estimateTokens text, inputTokens := none, outputTokens := none }
        finishReason := "completed"
        model := defaultModel }

/-- `GeminiDriver.chat`: validate the message list, then run the resilience
pipeline over the reply texts settled per attempt. -/
def chat (messages : List AIChatMessage) (defaultModel : String)
    (replies : Nat → Except DriverError String) (maxRetries : Nat) :
    Except DriverError AIChatResponse × Nat :=
  if messages.length = 0 then
    (.error (.configExc "Messages array cannot be empty"), 0)
  else if messages.any (fun m => m.content = "" || (jsTrim m.content).length = 0) then
    (.error (.configExc "Message content cannot be empty"), 0)
  else
    runWithMapping "gemini"
      (fun i => (replies i).bind (buildChatResponse messages defaultModel)) maxRetries

end GeminiDriver

/-! ## Manager (src/src/ai_manager.ts, class `AIManager`) -/

/-- The state of an `AIManager`: the `drivers` map (association list, first
binding wins on lookup, as for a JS `Map` without duplicate keys) and
`config.default`. The driver objects themselves are abstracted by `δ`. -/
structure AIManager (δ : Type) where
  drivers : List (String × δ)
  defaultName : String
deriving DecidableEq, Repr

/-- `AIManager.use(driver?)`: `driver || this.config.default` (so both an
omitted argument and the falsy empty string fall back to the default name),
then `Map.get`, throwing `AIDriverNotFoundException` on a miss. -/
def AIManager.use (m : AIManager δ) (driver : Option String) : Except DriverError δ :=
  let driverName :=
    match driver with
    | none => m.defaultName
    | some s => jsOrStr s m.defaultName
  match m.drivers.lookup driverName with
  | none => .error (.driverNotFoundExc driverName)
  | some d => .ok d

/-! ## Manager (src/src/ai_manager.ts, class `AiManager`) -/

/-- The state of an `AiManager` as `testProviders` sees it: the configured
provider names (`Object.keys(this.config.disks)`, in order) and, for each
name, the settled outcome of `await this.use(provider)` followed by
`await driver.isConfigured()` — either the probe's boolean or the error it
threw (driver construction failure included). -/
structure AiManager (ε : Type) where
  providers : List String
  probe : String → Except ε Bool

/-- The `try { … } catch { results[provider] = false }` body of one loop
iteration of `AiManager.testProviders`. -/
def probeOutcome (probe : String → Except ε Bool) (p : String) : Bool :=
  match probe p with
  | .ok b => b
  | .error _ => false

/-- `AiManager.testProviders`: probe every configured provider in order,
recording a boolean for each; the whole call is itself an async function
whose settled outcome is modelled in `Except`. -/
def AiManager.testProviders (m : AiManager ε) : Except ε (List (String × Bool)) :=
  go m.providers
where
  /-- The `for (const provider of this.getProviders())` loop. -/
  go : List String → Except ε (List (String × Bool))
  | [] => .ok []
  | p :: rest => do
    let b := probeOutcome m.probe p
    let others ← go rest
    pure ((p, b) :: others)

/-! ## Spec-side classification tables (§4.1 of the specification)

These two definitions follow the specification's words, not the source; they
exist to be compared with `mapCommonErrors`. The spec's table reads:
"Condition (case-insensitive substring match on message OR exact status
match)", rows checked in order with `GenericServiceError` as catch-all. -/

/-- The five resulting kinds of the spec's table. -/
inductive ErrorKind where
  | auth
  | rateLimit
  | timeout
  | serviceUnavailable
  | generic
deriving DecidableEq, Repr

/-- One table row, case-insensitive variant: some listed phrase occurs in
the message ignoring case, or the status equals some listed code. -/
def rowCI (message : String) (statusCode : Option Nat)
    (phrases : List String) (codes : List Nat) : Bool :=
  phrases.any (fun pat => strIncludes (lowerStr message) (lowerStr pat)) ||
  codes.any (fun c => statusCode == some c)

/-- One table row, case-sensitive variant (the amended reading): some listed
phrase occurs in the message exactly, or the status equals some listed code. -/
def rowCS (message : String) (statusCode : Option Nat)
    (phrases : List String) (codes : List Nat) : Bool :=
  phrases.any (fun pat => strIncludes message pat) ||
  codes.any (fun c => statusCode == some c)

/-- The spec's table exactly as written: case-insensitive substring match,
rows in priority order, generic catch-all. -/
def specTableKindCI (message : String) (statusCode : Option Nat) : ErrorKind :=
  if rowCI message statusCode ["api key", "API_KEY", "authentication", "401"] [401] then
    .auth
  else if rowCI message statusCode ["rate limit", "429"] [429] then
    .rateLimit
  else if rowCI message statusCode ["timeout", "408"] [408] then
    .timeout
  else if rowCI message statusCode ["503", "502", "SERVICE_UNAVAILABLE"] [502, 503] then
    .serviceUnavailable
  else
    .generic

/-- The spec's table amended to case-sensitive substring matching, which is
what the source's `String.prototype.includes` calls perform. -/
def specTableKindCS (message : String) (statusCode : Option Nat) : ErrorKind :=
  if rowCS message statusCode ["api key", "API_KEY", "authentication", "401"] [401] then
    .auth
  else if rowCS message statusCode ["rate limit", "429"] [429] then
    .rateLimit
  else if rowCS message statusCode ["timeout", "408"] [408] then
    .timeout
  else if rowCS message statusCode ["503", "502", "SERVICE_UNAVAILABLE"] [502, 503] then
    .serviceUnavailable
  else
    .generic

/-- The exception `mapCommonErrors` constructs for each resulting kind
(`message` feeds the generic catch-all's payload). -/
def kindToError (providerName message : String) : ErrorKind → DriverError
  | .auth => .apiKeyExc providerName
  | .rateLimit => .rateLimitExc providerName
  | .timeout => .timeoutExc providerName 30000
  | .serviceUnavailable => .serviceExc providerName "Service temporarily unavailable" 503
  | .generic => .serviceExc providerName message 500

/-! ## Concrete fixtures used by witnesses and counterexamples -/

/-- A call that fails twice with a raw 503 and succeeds on the third attempt. -/
def attempts503 : Nat → Except DriverError Nat :=
  fun i => if i < 2 then .error (.raw "Service Unavailable" (some 503) none) else .ok 42

/-- A call that fails once with a retryable raw 503 and then succeeds. -/
def attemptsOnce : Nat → Except DriverError Nat :=
  fun i => if i = 0 then .error (.raw "Service Unavailable" (some 503) none) else .ok 1

/-- A call whose every attempt fails with the package's own
`AIApiKeyException`. -/
def attemptsAuth : Nat → Except DriverError Nat :=
  fun _ => .error (.apiKeyExc "openai")

/-- A call whose every attempt fails with a raw 401 from the SDK. -/
def attempts401 : Nat → Except DriverError Nat :=
  fun _ => .error (.raw "Unauthorized" (some 401) none)

/-- A call whose every attempt loses the timeout race with a configured
timeout of 5000 ms. -/
def attemptsTimeout5000 : Nat → Except DriverError Completion :=
  fun _ => .error (.timeoutExc "openai" 5000)

/-- A chat history of one user message. -/
def msgsHi : List AIChatMessage :=
  [{ role := .user, content := "hi" }]

/-- An OpenAI completion replying "hello". -/
def completionsHello : Nat → Except DriverError Completion :=
  fun _ => .ok
    { content := some "hello", totalTokens := some 5, promptTokens := some 3
      completionTokens := some 2, finishReason := some "stop", model := "gpt-3.5-turbo" }

/-- The chat response the OpenAI pipeline builds from `completionsHello`. -/
def helloChatResponse : AIChatResponse :=
  { text := "hello"
    messages := msgsHi ++ [{ role := .assistant, content := "hello" }]
    usage := { tokens := 5, inputTokens := some 3, outputTokens := some 2 }
    finishReason := "stop"
    model := "gpt-3.5-turbo" }

/-- A Gemini reply of "hello" on every attempt. -/
def repliesHello : Nat → Except DriverError String :=
  fun _ => .ok "hello"

/-- A manager with drivers "openai" (0) and "gemini" (1), default "openai". -/
def mgrFixture : AIManager Nat :=
  { drivers := [("openai", 0), ("gemini", 1)], defaultName := "openai" }

/-- An `AiManager` with providerA's probe throwing and providerB's probe
returning true. -/
def amFixture : AiManager String :=
  { providers := ["providerA", "providerB"]
    probe := fun p => if p = "providerA" then .error "probe failed" else .ok true }

/-- A chat history whose single message has whitespace-only content. -/
def msgsBlank : List AIChatMessage :=
  [{ role := .user, content := " " }]

/-- An embeddings API response that always succeeds. -/
def embedRespOk : Nat → Except DriverError OpenAIDriver.EmbedApiResponse :=
  fun _ => .ok { data := [[1, 2]], totalTokens := some 7 }

/-- The chat response the Gemini pipeline builds from `repliesHello`. -/
def geminiHelloResponse : AIChatResponse :=
  { text := "hello"
    messages := msgsHi ++ [{ role := .assistant, content := "hello" }]
    usage := { tokens := estimateTokens "hello", inputTokens := none, outputTokens := none }
    finishReason := "completed"
    model := "gemini-pro" }

/-! ## Helper lemmas about the retry loop -/

theorem withRetryGo_of_ok (attempts : Nat → Except DriverError α) (a r : Nat) (v : α)
    (h : attempts a = .ok v) : withRetryGo attempts a r = ⟨.ok v, a + 1, []⟩ := by
  cases r <;> simp [withRetryGo, h]

theorem withRetryGo_of_noRetry (attempts : Nat → Except DriverError α) (a r : Nat)
    (e : DriverError) (h : attempts a = .error e) (hn : noRetryError e = true) :
    withRetryGo attempts a r = ⟨.error e, a + 1, []⟩ := by
  cases r <;> simp [withRetryGo, h, hn]

theorem withRetryGo_of_last (attempts : Nat → Except DriverError α) (a : Nat)
    (e : DriverError) (h : attempts a = .error e) :
    withRetryGo attempts a 0 = ⟨.error e, a + 1, []⟩ := by
  simp [withRetryGo, h]

theorem withRetryGo_of_step (attempts : Nat → Except DriverError α) (a r : Nat)
    (e : DriverError) (h : attempts a = .error e) (hn : noRetryError e = false) :
    withRetryGo attempts a (r + 1) =
      ⟨(withRetryGo attempts (a + 1) r).result,
       (withRetryGo attempts (a + 1) r).attemptsMade,
       a :: (withRetryGo attempts (a + 1) r).sleeps⟩ := by
  simp [withRetryGo, h, hn]

theorem withRetryGo_count_ge (attempts : Nat → Except DriverError α) (r a : Nat) :
    a + 1 ≤ (withRetryGo attempts a r).attemptsMade := by
  induction r generalizing a with
  | zero =>
    cases h : attempts a with
    | ok v => rw [withRetryGo_of_ok attempts a 0 v h]
    | error e => rw [withRetryGo_of_last attempts a e h]
  | succ r ih =>
    cases h : attempts a with
    | ok v => rw [withRetryGo_of_ok attempts a (r + 1) v h]
    | error e =>
      cases hn : noRetryError e with
      | true => rw [withRetryGo_of_noRetry attempts a (r + 1) e h hn]
      | false =>
        rw [withRetryGo_of_step attempts a r e h hn]
        have := ih (a + 1)
        simp only []
        omega

theorem withRetryGo_count_le (attempts : Nat → Except DriverError α) (r a : Nat) :
    (withRetryGo attempts a r).attemptsMade ≤ a + r + 1 := by
  induction r generalizing a with
  | zero =>
    cases h : attempts a with
    | ok v => rw [withRetryGo_of_ok attempts a 0 v h]
    | error e => rw [withRetryGo_of_last attempts a e h]
  | succ r ih =>
    cases h : attempts a with
    | ok v =>
      rw [withRetryGo_of_ok attempts a (r + 1) v h]
      simp only []
      omega
    | error e =>
      cases hn : noRetryError e with
      | true =>
        rw [withRetryGo_of_noRetry attempts a (r + 1) e h hn]
        simp only []
        omega
      | false =>
        rw [withRetryGo_of_step attempts a r e h hn]
        have := ih (a + 1)
        simp only []
        omega

theorem withRetryGo_ok_inv (attempts : Nat → Except DriverError α) (r a : Nat) (v : α)
    (h : (withRetryGo attempts a r).result = .ok v) :
    attempts ((withRetryGo attempts a r).attemptsMade - 1) = .ok v ∧
    ∀ j, a ≤ j → j < (withRetryGo attempts a r).attemptsMade - 1 →
      ∃ e, attempts j = .error e := by
  induction r generalizing a with
  | zero =>
    cases ha : attempts a with
    | ok w =>
      rw [withRetryGo_of_ok attempts a 0 w ha] at h ⊢
      simp only [Except.ok.injEq] at h
      subst h
      refine ⟨by simpa using ha, ?_⟩
      intro j hj1 hj2
      dsimp only at hj2
      exact absurd hj2 (by omega)
    | error e =>
      rw [withRetryGo_of_last attempts a e ha] at h
      simp at h
  | succ r ih =>
    cases ha : attempts a with
    | ok w =>
      rw [withRetryGo_of_ok attempts a (r + 1) w ha] at h ⊢
      simp only [Except.ok.injEq] at h
      subst h
      refine ⟨by simpa using ha, ?_⟩
      intro j hj1 hj2
      dsimp only at hj2
      exact absurd hj2 (by omega)
    | error e =>
      cases hn : noRetryError e with
      | true =>
        rw [withRetryGo_of_noRetry attempts a (r + 1) e ha hn] at h
        simp at h
      | false =>
        rw [withRetryGo_of_step attempts a r e ha hn] at h ⊢
        obtain ⟨h1, h2⟩ := ih (a + 1) h
        refine ⟨h1, ?_⟩
        intro j hj1 hj2
        rcases Nat.eq_or_lt_of_le hj1 with hja | hja
        · exact ⟨e, hja ▸ ha⟩
        · exact h2 j hja hj2

theorem withRetryGo_err_inv (attempts : Nat → Except DriverError α) (r a : Nat)
    (e : DriverError) (h : (withRetryGo attempts a r).result = .error e) :
    attempts ((withRetryGo attempts a r).attemptsMade - 1) = .error e := by
  induction r generalizing a with
  | zero =>
    cases ha : attempts a with
    | ok w =>
      rw [withRetryGo_of_ok attempts a 0 w ha] at h
      simp at h
    | error e' =>
      rw [withRetryGo_of_last attempts a e' ha] at h ⊢
      simp only [Except.error.injEq] at h
      subst h
      simpa using ha
  | succ r ih =>
    cases ha : attempts a with
    | ok w =>
      rw [withRetryGo_of_ok attempts a (r + 1) w ha] at h
      simp at h
    | error e' =>
      cases hn : noRetryError e' with
      | true =>
        rw [withRetryGo_of_noRetry attempts a (r + 1) e' ha hn] at h ⊢
        simp only [Except.error.injEq] at h
        subst h
        simpa using ha
      | false =>
        rw [withRetryGo_of_step attempts a r e' ha hn] at h ⊢
        exact ih (a + 1) h

theorem withRetryGo_sleeps_inv (attempts : Nat → Except DriverError α) (r a : Nat) :
    ∀ n ∈ (withRetryGo attempts a r).sleeps,
      (∃ e, attempts n = .error e ∧ noRetryError e = false) ∧
      n + 1 < (withRetryGo attempts a r).attemptsMade := by
  induction r generalizing a with
  | zero =>
    cases ha : attempts a with
    | ok v => rw [withRetryGo_of_ok attempts a 0 v ha]; simp
    | error e => rw [withRetryGo_of_last attempts a e ha]; simp
  | succ r ih =>
    cases ha : attempts a with
    | ok v => rw [withRetryGo_of_ok attempts a (r + 1) v ha]; simp
    | error e =>
      cases hn : noRetryError e with
      | true => rw [withRetryGo_of_noRetry attempts a (r + 1) e ha hn]; simp
      | false =>
        rw [withRetryGo_of_step attempts a r e ha hn]
        intro n hmem
        simp only [List.mem_cons] at hmem
        rcases hmem with hna | hrest
        · have hcge := withRetryGo_count_ge attempts r (a + 1)
          subst hna
          refine ⟨⟨e, ha, hn⟩, ?_⟩
          dsimp only
          omega
        · obtain ⟨h1, h2⟩ := ih (a + 1) n hrest
          refine ⟨h1, ?_⟩
          simp only []
          omega

/-! ## Helper lemmas about classification -/

theorem rowCS_auth (m : String) (s : Option Nat) :
    rowCS m s ["api key", "API_KEY", "authentication", "401"] [401] = isAuthError m s := by
  simp [rowCS, isAuthError, Bool.or_assoc]

theorem rowCS_rate (m : String) (s : Option Nat) :
    rowCS m s ["rate limit", "429"] [429] = isRateLimitError m s := by
  simp [rowCS, isRateLimitError, Bool.or_assoc]

theorem rowCS_timeout (m : String) (s : Option Nat) :
    rowCS m s ["timeout", "408"] [408] = isTimeoutError m s := by
  simp [rowCS, isTimeoutError, Bool.or_assoc]

theorem rowCS_service (m : String) (s : Option Nat) :
    rowCS m s ["503", "502", "SERVICE_UNAVAILABLE"] [502, 503] = isServiceError m s := by
  simp [rowCS, isServiceError, Bool.or_assoc]
  cases hx : s == some 503 <;> cases hy : s == some 502 <;> simp [hx, hy]

/-! ## Claims -/

/-- Claim C1, amended (matching is case-sensitive, not case-insensitive):
for every error input, `mapCommonErrors` produces exactly the kind given by
the spec's table with case-sensitive substring matching on the message OR
exact status match, rows checked in priority order (auth, rate-limit,
timeout, service-unavailable) with GenericServiceError as catch-all; the
result is always one of the five kinds, never the original error re-thrown
unclassified. -/
theorem mapCommonErrors_follows_table (providerName : String) (e : DriverError) :
    mapCommonErrors providerName e =
      kindToError providerName (errMessage e)
        (specTableKindCS (errMessage e) (errStatusCode e)) := by
  simp only [mapCommonErrors, specTableKindCS, rowCS_auth, rowCS_rate, rowCS_timeout,
    rowCS_service]
  split_ifs <;> rfl

/-- Claim C1, counterexample to the claim as stated: the message
"Connection TIMEOUT" matches the timeout row under case-insensitive
substring matching, but the code's case-sensitive `includes` misses it and
classifies the error as the generic catch-all instead. -/
theorem mapCommonErrors_case_counterexample :
    specTableKindCI "Connection TIMEOUT" none = ErrorKind.timeout ∧
    specTableKindCS "Connection TIMEOUT" none = ErrorKind.generic ∧
    mapCommonErrors "openai" (DriverError.raw "Connection TIMEOUT" none none) =
      DriverError.serviceExc "openai" "Connection TIMEOUT" 500 := by
  decide

/-- Claim C1, witness for the amended theorem's concrete evaluation: a raw
rate-limit message is classified as RateLimitError. -/
theorem mapCommonErrors_follows_table_witness :
    mapCommonErrors "openai" (DriverError.raw "rate limit exceeded" none none) =
      kindToError "openai" (errMessage (DriverError.raw "rate limit exceeded" none none))
        (specTableKindCS (errMessage (DriverError.raw "rate limit exceeded" none none))
          (errStatusCode (DriverError.raw "rate limit exceeded" none none))) :=
  mapCommonErrors_follows_table "openai" (DriverError.raw "rate limit exceeded" none none)

/-- Claim C2: for every retry attempt `n` recorded as slept over (those
followed by another attempt), and every jitter in `[0, 1000)`, the slept
duration `backoffSleep n jitter` lies in
`[min(1000 * 2 ^ n, 10000), min(1000 * 2 ^ n, 10000) + 1000)` milliseconds. -/
theorem backoff_delay_in_bounds (attempts : Nat → Except DriverError α)
    (maxRetries n : Nat) (hmem : n ∈ (withRetry attempts maxRetries).sleeps)
    (jitter : ℚ) (hj0 : 0 ≤ jitter) (hj1 : jitter < 1000) :
    ((min (1000 * 2 ^ n) 10000 : Nat) : ℚ) ≤ backoffSleep n jitter ∧
    backoffSleep n jitter < ((min (1000 * 2 ^ n) 10000 : Nat) : ℚ) + 1000 ∧
    n + 1 < (withRetry attempts maxRetries).attemptsMade := by
  refine ⟨?_, ?_, ?_⟩
  · simpa [backoffSleep] using
      le_add_of_nonneg_right (a := ((min (1000 * 2 ^ n) 10000 : Nat) : ℚ)) hj0
  · simpa [backoffSleep] using add_lt_add_left hj1 ((min (1000 * 2 ^ n) 10000 : Nat) : ℚ)
  · exact (withRetryGo_sleeps_inv attempts maxRetries 0 n hmem).2

/-- Claim C2 witness: attempt 0 of `attemptsOnce` is slept over, and with
jitter 500 the delay `backoffSleep 0 500` lies in `[1000, 2000)`. -/
theorem backoff_delay_in_bounds_witness :
    ((min (1000 * 2 ^ 0) 10000 : Nat) : ℚ) ≤ backoffSleep 0 500 ∧
    backoffSleep 0 500 < ((min (1000 * 2 ^ 0) 10000 : Nat) : ℚ) + 1000 ∧
    0 + 1 < (withRetry attemptsOnce 3).attemptsMade :=
  backoff_delay_in_bounds attemptsOnce 3 0 (by decide) 500 (by norm_num) (by norm_num)

/-- Claim C3: an attempt failing with the classified AuthError exception or
a raw status of 400, 401 or 403 makes the retry policy stop after exactly
one attempt and re-raise; in particular a remote call failing with a raw
401 makes exactly one attempt and the caller receives the AuthError
exception after classification. -/
theorem no_retry_on_auth :
    (∀ (α : Type) (attempts : Nat → Except DriverError α) (maxRetries : Nat)
       (e : DriverError), attempts 0 = .error e →
       ((∃ p, e = .apiKeyExc p) ∨ e.jsStatus = some 400 ∨ e.jsStatus = some 401 ∨
         e.jsStatus = some 403) →
       (withRetry attempts maxRetries).result = .error e ∧
       (withRetry attempts maxRetries).attemptsMade = 1) ∧
    (∀ (α : Type) (attempts : Nat → Except DriverError α) (maxRetries : Nat)
       (m : String) (c : Option Nat), attempts 0 = .error (.raw m (some 401) c) →
       runWithMapping "openai" attempts maxRetries = (.error (.apiKeyExc "openai"), 1)) := by
  constructor
  · intro α attempts maxRetries e h0 hkind
    have hn : noRetryError e = true := by
      rcases hkind with ⟨p, rfl⟩ | hs | hs | hs
      · simp [noRetryError]
      · simp [noRetryError, hs]
      · simp [noRetryError, hs]
      · simp [noRetryError, hs]
    rw [withRetry, withRetryGo_of_noRetry attempts 0 maxRetries e h0 hn]
    exact ⟨rfl, rfl⟩
  · intro α attempts maxRetries m c h0
    have hn : noRetryError (DriverError.raw m (some 401) c) = true := by
      simp [noRetryError, DriverError.jsStatus]
    have hw : withRetry attempts maxRetries = ⟨.error (.raw m (some 401) c), 1, []⟩ :=
      withRetryGo_of_noRetry attempts 0 maxRetries _ h0 hn
    have hmap : mapCommonErrors "openai" (DriverError.raw m (some 401) c) =
        .apiKeyExc "openai" := by
      have hsc : errStatusCode (DriverError.raw m (some 401) c) = some 401 := by
        simp [errStatusCode, DriverError.jsStatus, DriverError.jsNumCode, jsOrNum]
      have hauth : isAuthError (errMessage (DriverError.raw m (some 401) c))
          (errStatusCode (DriverError.raw m (some 401) c)) = true := by
        simp [isAuthError, hsc]
      simp [mapCommonErrors, hauth]
    simp [runWithMapping, hw, hmap]

/-- Claim C3 witness: with every attempt failing as `AIApiKeyException` the
policy stops with that error after one attempt, and with every attempt
failing as a raw 401 the caller receives AuthError after one attempt. -/
theorem no_retry_on_auth_witness :
    ((withRetry attemptsAuth 3).result = .error (.apiKeyExc "openai") ∧
     (withRetry attemptsAuth 3).attemptsMade = 1) ∧
    runWithMapping "openai" attempts401 3 = (.error (.apiKeyExc "openai"), 1) :=
  ⟨no_retry_on_auth.1 Nat attemptsAuth 3 (.apiKeyExc "openai") rfl (Or.inl ⟨"openai", rfl⟩),
   no_retry_on_auth.2 Nat attempts401 3 "Unauthorized" none rfl⟩

/-- Claim C4: the retry policy makes at most `maxRetries + 1` attempts;
a success is the first successful attempt (every earlier attempt failed)
and its value is returned; a failure re-raises the error observed on the
last attempt made; and in the concrete 503 scenario with `maxRetries = 3`
and success on the third attempt, the result is the success and exactly 3
attempts were made. -/
theorem retry_policy_attempts :
    (∀ (α : Type) (attempts : Nat → Except DriverError α) (maxRetries : Nat),
       (withRetry attempts maxRetries).attemptsMade ≤ maxRetries + 1) ∧
    (∀ (α : Type) (attempts : Nat → Except DriverError α) (maxRetries : Nat) (v : α),
       (withRetry attempts maxRetries).result = .ok v →
       attempts ((withRetry attempts maxRetries).attemptsMade - 1) = .ok v ∧
       ∀ j < (withRetry attempts maxRetries).attemptsMade - 1,
         ∃ e, attempts j = .error e) ∧
    (∀ (α : Type) (attempts : Nat → Except DriverError α) (maxRetries : Nat)
       (e : DriverError), (withRetry attempts maxRetries).result = .error e →
       attempts ((withRetry attempts maxRetries).attemptsMade - 1) = .error e) ∧
    ((withRetry attempts503 3).result = .ok 42 ∧
     (withRetry attempts503 3).attemptsMade = 3) := by
  refine ⟨?_, ?_, ?_, ?_⟩
  · intro α attempts maxRetries
    have := withRetryGo_count_le attempts maxRetries 0
    simpa [withRetry] using this
  · intro α attempts maxRetries v h
    obtain ⟨h1, h2⟩ := withRetryGo_ok_inv attempts maxRetries 0 v h
    exact ⟨h1, fun j hj => h2 j (Nat.zero_le j) hj⟩
  · intro α attempts maxRetries e h
    exact withRetryGo_err_inv attempts maxRetries 0 e h
  · decide

/-- Claim C4 witness: in the 503 scenario the attempt count respects the
bound and the returned value is the third attempt's success. -/
theorem retry_policy_attempts_witness :
    (withRetry attempts503 3).attemptsMade ≤ 3 + 1 ∧
    attempts503 ((withRetry attempts503 3).attemptsMade - 1) = .ok 42 :=
  ⟨retry_policy_attempts.1 Nat attempts503 3,
   (retry_policy_attempts.2.1 Nat attempts503 3 42 (by decide)).1⟩

/-- Claim C5: empty or whitespace-only prompts (generate, stream), an empty
message list or a message with empty/whitespace-only content (chat, both
drivers), and an empty text list or an entry with empty/whitespace-only
content (embed) make the operation return ConfigurationError with zero
network calls attempted. -/
theorem validation_rejects_empty_input :
    (∀ (prompt : String) (completions : Nat → Except DriverError Completion)
       (maxRetries : Nat), jsTrim prompt = "" →
       OpenAIDriver.generate prompt completions maxRetries =
         (.error (.configExc "Prompt cannot be empty"), 0)) ∧
    (∀ (completions : Nat → Except DriverError Completion) (maxRetries : Nat),
       OpenAIDriver.chat [] completions maxRetries =
         (.error (.configExc "Messages array cannot be empty"), 0)) ∧
    (∀ (messages : List AIChatMessage) (completions : Nat → Except DriverError Completion)
       (maxRetries : Nat), (∃ m ∈ messages, jsTrim m.content = "") →
       OpenAIDriver.chat messages completions maxRetries =
         (.error (.configExc "Message content cannot be empty"), 0)) ∧
    (∀ (responses : Nat → Except DriverError OpenAIDriver.EmbedApiResponse)
       (maxRetries : Nat),
       OpenAIDriver.embed (.inr []) responses maxRetries =
         (.error (.configExc "Text array cannot be empty"), 0)) ∧
    (∀ (input : String ⊕ List String)
       (responses : Nat → Except DriverError OpenAIDriver.EmbedApiResponse)
       (maxRetries : Nat),
       (∃ t ∈ OpenAIDriver.normalizeEmbedInput input, jsTrim t = "") →
       OpenAIDriver.embed input responses maxRetries =
         (.error (.configExc "Text content cannot be empty"), 0)) ∧
    (∀ (σ : Type) (prompt : String) (connect : Except DriverError σ), jsTrim prompt = "" →
       OpenAIDriver.stream prompt connect =
         (.error (.configExc "Prompt cannot be empty"), 0)) ∧
    (∀ (defaultModel : String) (replies : Nat → Except DriverError String)
       (maxRetries : Nat),
       GeminiDriver.chat [] defaultModel replies maxRetries =
         (.error (.configExc "Messages array cannot be empty"), 0)) ∧
    (∀ (messages : List AIChatMessage) (defaultModel : String)
       (replies : Nat → Except DriverError String) (maxRetries : Nat),
       (∃ m ∈ messages, jsTrim m.content = "") →
       GeminiDriver.chat messages defaultModel replies maxRetries =
         (.error (.configExc "Message content cannot be empty"), 0)) := by
  refine ⟨?_, ?_, ?_, ?_, ?_, ?_, ?_, ?_⟩
  · intro prompt completions maxRetries h
    simp [OpenAIDriver.generate, h]
  · intro completions maxRetries
    simp [OpenAIDriver.chat]
  · intro messages completions maxRetries ⟨m, hm, hmc⟩
    have hne : messages.length ≠ 0 := by
      cases messages with
      | nil => simp at hm
      | cons x xs => simp
    have hany : (messages.any fun mm => mm.content = "" || (jsTrim mm.content).length = 0)
        = true :=
      List.any_eq_true.mpr ⟨m, hm, by simp [hmc]⟩
    simp [OpenAIDriver.chat, hne, hany]
  · intro responses maxRetries
    simp [OpenAIDriver.embed, OpenAIDriver.normalizeEmbedInput]
  · intro input responses maxRetries ⟨t, ht, htc⟩
    have hne : (OpenAIDriver.normalizeEmbedInput input).length ≠ 0 := by
      cases hninp : OpenAIDriver.normalizeEmbedInput input with
      | nil => rw [hninp] at ht; simp at ht
      | cons x xs => simp
    have hany : ((OpenAIDriver.normalizeEmbedInput input).any
        fun tt => tt = "" || (jsTrim tt).length = 0) = true :=
      List.any_eq_true.mpr ⟨t, ht, by simp [htc]⟩
    simp [OpenAIDriver.embed, hne, hany]
  · intro σ prompt connect h
    simp [OpenAIDriver.stream, h]
  · intro defaultModel replies maxRetries
    simp [GeminiDriver.chat]
  · intro messages defaultModel replies maxRetries ⟨m, hm, hmc⟩
    have hne : messages.length ≠ 0 := by
      cases messages with
      | nil => simp at hm
      | cons x xs => simp
    have hany : (messages.any fun mm => mm.content = "" || (jsTrim mm.content).length = 0)
        = true :=
      List.any_eq_true.mpr ⟨m, hm, by simp [hmc]⟩
    simp [GeminiDriver.chat, hne, hany]

/-- Claim C5 witness: concrete empty and whitespace-only inputs are all
rejected as ConfigurationError with zero network calls. -/
theorem validation_rejects_empty_input_witness :
    OpenAIDriver.generate " " completionsHello 3 =
      (.error (.configExc "Prompt cannot be empty"), 0) ∧
    OpenAIDriver.chat [] completionsHello 3 =
      (.error (.configExc "Messages array cannot be empty"), 0) ∧
    OpenAIDriver.chat msgsBlank completionsHello 3 =
      (.error (.configExc "Message content cannot be empty"), 0) ∧
    OpenAIDriver.embed (.inr []) embedRespOk 3 =
      (.error (.configExc "Text array cannot be empty"), 0) ∧
    OpenAIDriver.embed (.inl "  ") embedRespOk 3 =
      (.error (.configExc "Text content cannot be empty"), 0) ∧
    OpenAIDriver.stream "" (.ok 0) = (.error (.configExc "Prompt cannot be empty"), 0) ∧
    GeminiDriver.chat msgsBlank "gemini-pro" repliesHello 3 =
      (.error (.configExc "Message content cannot be empty"), 0) :=
  ⟨validation_rejects_empty_input.1 " " completionsHello 3 (by decide),
   validation_rejects_empty_input.2.1 completionsHello 3,
   validation_rejects_empty_input.2.2.1 msgsBlank completionsHello 3 (by decide),
   validation_rejects_empty_input.2.2.2.1 embedRespOk 3,
   validation_rejects_empty_input.2.2.2.2.1 (.inl "  ") embedRespOk 3 (by decide),
   validation_rejects_empty_input.2.2.2.2.2.1 Nat "" (.ok 0) (by decide),
   validation_rejects_empty_input.2.2.2.2.2.2.2 msgsBlank "gemini-pro" repliesHello 3
     (by decide)⟩

/-! ## Helper lemmas about the call pipeline -/

theorem exceptBind_ok {β γ : Type} (e : Except DriverError β) (f : β → Except DriverError γ)
    (v : γ) (h : e.bind f = .ok v) : ∃ b, e = .ok b ∧ f b = .ok v := by
  cases e with
  | error x => simp [Except.bind] at h
  | ok b => exact ⟨b, rfl, by simpa [Except.bind] using h⟩

theorem runWithMapping_ok_inv (p : String) (attempts : Nat → Except DriverError α)
    (maxRetries : Nat) (v : α) (h : (runWithMapping p attempts maxRetries).1 = .ok v) :
    ∃ i, attempts i = .ok v := by
  unfold runWithMapping at h
  simp only [] at h
  cases hres : (withRetry attempts maxRetries).result with
  | ok w =>
    rw [hres] at h
    simp only [Except.ok.injEq] at h
    subst h
    exact ⟨(withRetry attempts maxRetries).attemptsMade - 1,
      (withRetryGo_ok_inv attempts maxRetries 0 w hres).1⟩
  | error e =>
    rw [hres] at h
    simp at h

theorem buildChatResponse_ok_messages (messages : List AIChatMessage) (c : Completion)
    (r : AIChatResponse) (h : OpenAIDriver.buildChatResponse messages c = .ok r) :
    r.messages = messages ++ [{ role := .assistant, content := r.text }] := by
  unfold OpenAIDriver.buildChatResponse at h
  split at h
  · simp at h
  · simp only [Except.ok.injEq] at h
    subst h
    rfl

theorem gemini_buildChatResponse_ok_messages (messages : List AIChatMessage)
    (defaultModel text : String) (r : AIChatResponse)
    (h : GeminiDriver.buildChatResponse messages defaultModel text = .ok r) :
    r.messages = messages ++ [{ role := .assistant, content := r.text }] := by
  unfold GeminiDriver.buildChatResponse at h
  split at h
  · simp at h
  · simp only [Except.ok.injEq] at h
    subst h
    rfl

/-- Claim C6: whenever `chat` succeeds, the returned message list is exactly
the input list with one assistant message carrying the reply text appended
at the end, the input preserved unchanged — for both the OpenAI and the
Gemini driver. -/
theorem chat_appends_assistant :
    (∀ (messages : List AIChatMessage) (completions : Nat → Except DriverError Completion)
       (maxRetries : Nat) (r : AIChatResponse),
       (OpenAIDriver.chat messages completions maxRetries).1 = .ok r →
       r.messages = messages ++ [{ role := .assistant, content := r.text }]) ∧
    (∀ (messages : List AIChatMessage) (defaultModel : String)
       (replies : Nat → Except DriverError String) (maxRetries : Nat) (r : AIChatResponse),
       (GeminiDriver.chat messages defaultModel replies maxRetries).1 = .ok r →
       r.messages = messages ++ [{ role := .assistant, content := r.text }]) := by
  constructor
  · intro messages completions maxRetries r h
    unfold OpenAIDriver.chat at h
    split at h
    · simp at h
    · split at h
      · simp at h
      · obtain ⟨i, hi⟩ := runWithMapping_ok_inv _ _ _ _ h
        obtain ⟨c, -, hb⟩ := exceptBind_ok _ _ _ hi
        exact buildChatResponse_ok_messages messages c r hb
  · intro messages defaultModel replies maxRetries r h
    unfold GeminiDriver.chat at h
    split at h
    · simp at h
    · split at h
      · simp at h
      · obtain ⟨i, hi⟩ := runWithMapping_ok_inv _ _ _ _ h
        obtain ⟨t, -, hb⟩ := exceptBind_ok _ _ _ hi
        exact gemini_buildChatResponse_ok_messages messages defaultModel t r hb

/-- Claim C6 witness: the concrete "hi"/"hello" exchange appends exactly one
assistant message for both drivers. -/
theorem chat_appends_assistant_witness :
    helloChatResponse.messages =
      msgsHi ++ [{ role := .assistant, content := helloChatResponse.text }] ∧
    geminiHelloResponse.messages =
      msgsHi ++ [{ role := .assistant, content := geminiHelloResponse.text }] :=
  ⟨chat_appends_assistant.1 msgsHi completionsHello 3 helloChatResponse (by decide),
   chat_appends_assistant.2 msgsHi "gemini-pro" repliesHello 3 geminiHelloResponse
     (by decide)⟩

/-- Claim C7 counterexample: in a manager with only "openai" registered and
default "openai", the empty string is a name under which no driver is
registered, yet `use('')` returns the default driver instead of raising
DriverNotFoundError — the empty-string name silently falls back. -/
theorem use_empty_name_counterexample :
    mgrFixture.drivers.lookup "" = none ∧
    mgrFixture.use (some "") = .ok 0 := by
  decide

/-- Claim C7, amended (restricted to nonempty names): `use(name)` with a
nonempty name under which no driver is registered raises
DriverNotFoundError, and `use()` with no argument returns the driver
registered under the configured default name. -/
theorem use_resolves_names :
    (∀ (δ : Type) (m : AIManager δ) (name : String), name ≠ "" →
       m.drivers.lookup name = none →
       m.use (some name) = .error (.driverNotFoundExc name)) ∧
    (∀ (δ : Type) (m : AIManager δ) (d : δ),
       m.drivers.lookup m.defaultName = some d → m.use none = .ok d) := by
  constructor
  · intro δ m name hne hlook
    simp [AIManager.use, jsOrStr, hne, hlook]
  · intro δ m d h
    simp [AIManager.use, h]

/-- Claim C7 witness: the unknown nonempty name "mistral" raises
DriverNotFoundError and the no-argument call returns the default driver. -/
theorem use_resolves_names_witness :
    mgrFixture.use (some "mistral") = .error (.driverNotFoundExc "mistral") ∧
    mgrFixture.use none = .ok 0 :=
  ⟨use_resolves_names.1 Nat mgrFixture "mistral" (by decide) (by decide),
   use_resolves_names.2 Nat mgrFixture 0 (by decide)⟩

/-- Claim C8: `testProviders` never raises — it returns, for every
configured provider in order, that provider's own probe outcome, a throwing
probe being recorded as `false` without affecting any other provider's
entry; in the concrete two-provider scenario the result is
providerA ↦ false, providerB ↦ true. -/
theorem testProviders_isolates_failures :
    (∀ (ε : Type) (m : AiManager ε),
       m.testProviders = .ok (m.providers.map fun p => (p, probeOutcome m.probe p))) ∧
    amFixture.testProviders = .ok [("providerA", false), ("providerB", true)] := by
  constructor
  · intro ε m
    have hgo : ∀ l, AiManager.testProviders.go m l =
        .ok (l.map fun p => (p, probeOutcome m.probe p)) := by
      intro l
      induction l with
      | nil => rfl
      | cons p rest ih =>
        simp [AiManager.testProviders.go, ih, Bind.bind, Except.bind, Pure.pure, Except.pure]
    exact hgo m.providers
  · decide

/-- Claim C9 (evaluation at the failing configuration): with a configured
timeout of 5000 ms and every attempt losing the timeout race, the error
delivered to the caller is an AITimeoutException carrying the hardcoded
30000 ms, not the configured 5000 ms. -/
theorem timeout_value_replaced_by_constant :
    OpenAIDriver.generate "hello" attemptsTimeout5000 3 =
      (.error (.timeoutExc "openai" 30000), 4) ∧
    DriverError.timeoutExc "openai" 30000 ≠ DriverError.timeoutExc "openai" 5000 := by
  decide

/-- Claim C10: when the configured default name has a registered driver,
`use('')` with the empty string falls back to the default name (the empty
string is falsy in `driver || this.config.default`) and returns the default
driver rather than raising DriverNotFoundError. -/
theorem use_empty_string_falls_back (δ : Type) (m : AIManager δ) (d : δ)
    (h : m.drivers.lookup m.defaultName = some d) :
    m.use (some "") = .ok d := by
  simp [AIManager.use, jsOrStr, h]

/-- Claim C10 witness: `use('')` on the concrete manager returns the driver
registered under the default name "openai". -/
theorem use_empty_string_falls_back_witness :
    mgrFixture.use (some "") = .ok 0 :=
  use_empty_string_falls_back Nat mgrFixture 0 (by decide)
